import Mathlib

/-!
Verification of the request router in src/lambda_function.py.

Modelling conventions, used throughout:

* Python strings are modelled as `Str := List Char`; the helper `str`
  turns a Lean string literal into such a list.  Python `.lower()` is
  modelled with `Char.toLower` (ASCII case mapping; all text the claims
  exercise is ASCII).
* Parsed JSON documents are modelled by the inductive `Json`; a parsed
  JSON object body is an association list `List (Str × Json)`.  The
  Python `json.dumps` of a response dict is modelled structurally (the
  response carries the `Json` value rather than its serialised text).
* The external collaborators (S3, the Bedrock model, the FPDF renderer,
  unicodedata normalisation, the wall clock) are parameters collected in
  `Env`.  A storage read yields `Except Str Str`: `Except.error`
  models a raised botocore exception (including the missing-key case),
  `Except.ok` the decoded object text.
* Side effects are made explicit: every handler returns an `Outcome`
  carrying the `Except`-wrapped response (an uncaught Python exception
  is `Except.error`), the list of keys passed to `s3_read_text`, and
  the list of (system prompt, user prompt) pairs sent to the model.
-/

/-- Python strings, modelled as lists of characters. -/
abbrev Str : Type := List Char

/-- Embed a Lean string literal as a `Str`. -/
def str (s : String) : Str := s.data

/-- Split a character list at every occurrence of the separator `c`;
    models Python `text.split(sep)` for a one-character separator. -/
def splitOnChar (c : Char) : Str → List Str
  | [] => [[]]
  | x :: xs =>
    match splitOnChar c xs with
    | [] => if x = c then [[], []] else [[x]]
    | y :: ys => if x = c then [] :: y :: ys else (x :: y) :: ys

/-- Python `s.lower()`; ASCII case mapping. -/
def pyLower (s : Str) : Str := s.map Char.toLower

/-- Python `s.title()` restricted to alphabetic word detection: an
    alphabetic character is upper-cased after a non-alphabetic one and
    lower-cased otherwise. -/
def pyTitle (s : Str) : Str :=
  (s.foldl
    (fun (acc : Str × Bool) c =>
      (acc.1 ++ [if c.isAlpha then (if acc.2 then c.toLower else c.toUpper) else c],
       c.isAlpha))
    ([], false)).1

/-- Decimal rendering of a natural number, as Python `str(n)` for
    non-negative `n`. -/
def natStr (n : Nat) : Str := Nat.toDigits 10 n

/-- Python `needle in hay` for strings: contiguous substring test. -/
def pyIn (needle : Str) : Str → Bool
  | [] => needle.isPrefixOf []
  | c :: t => needle.isPrefixOf (c :: t) || pyIn needle t

/-- Python string comparison: lexicographic on code points. -/
def strLt : Str → Str → Bool
  | [], [] => false
  | [], _ :: _ => true
  | _ :: _, [] => false
  | a :: as, b :: bs => if a = b then strLt as bs else decide (a < b)

/-- Insert into an ascending duplicate-free list, keeping it so. -/
def insertSortedUnique (x : Str) : List Str → List Str
  | [] => [x]
  | y :: ys =>
    if x = y then y :: ys
    else if strLt x y then x :: y :: ys
    else y :: insertSortedUnique x ys

/-- Python `sorted(set(l))` for strings. -/
def pySortedSet (l : List Str) : List Str := l.foldr insertSortedUnique []

/-- Parsed JSON values. -/
inductive Json : Type
  | str (s : Str)
  | num (n : Int)
  | bool (b : Bool)
  | null
  | arr (xs : List Json)
  | obj (fields : List (Str × Json))

/-- Python `d.get(k)` on a parsed JSON object (association list).
    Duplicate keys do not occur in the modelled scope. -/
def jget (b : List (Str × Json)) (k : Str) : Option Json :=
  (b.find? (fun f => f.1 = k)).map (fun f => f.2)

/-- Python truthiness of an optional JSON value (`None` and the empty
    or zero values are falsy). -/
def jsonFalsy : Option Json → Bool
  | none => true
  | some (Json.str s) => s.isEmpty
  | some (Json.num n) => n == 0
  | some (Json.bool b) => !b
  | some Json.null => true
  | some (Json.arr xs) => xs.isEmpty
  | some (Json.obj fs) => fs.isEmpty

/-- The string content of an optional JSON value.  The handlers only
    ever interpolate string-valued (or absent) fields in the modelled
    scope; other value shapes are outside it. -/
def jsonAsStr : Option Json → Str
  | some (Json.str s) => s
  | _ => []

/-- Python `d.get(k, default)` used where the code expects a string. -/
def jgetStrD (b : List (Str × Json)) (k dflt : Str) : Str :=
  match jget b k with
  | some (Json.str s) => s
  | _ => dflt

/-- A response body: either a JSON document (the result of
    `json.dumps`) or a raw string (empty preflight body, base64 PDF). -/
inductive RBody : Type
  | jsonOf (j : Json)
  | raw (s : Str)

/-- The Lambda proxy response dictionary. -/
structure Response : Type where
  statusCode : Nat
  headers : List (Str × Str)
  body : RBody
  isBase64Encoded : Bool

/-- One request-handling run: the `Except`-wrapped response (an
    uncaught Python exception is `Except.error`), the keys passed to
    `s3_read_text` in order, and the (system prompt, user prompt)
    pairs sent to the model in order. -/
structure Outcome : Type where
  result : Except Str Response
  s3Reads : List Str
  modelCalls : List (Str × Str)

/-- The S3 bucket: the key listing served by `list_objects_v2`, and a
    per-key read outcome for `get_object` (`Except.error` models a
    raised client exception, including the missing-key case). -/
structure Bucket : Type where
  keys : List Str
  read : Str → Except Str Str

/-- The external collaborators of the handler module. -/
structure Env : Type where
  bucket : Bucket
  /-- The Bedrock exchange: system prompt and user prompt to generated
      text, or a raised invocation error. -/
  bedrock : Str → Str → Except Str Str
  /-- The FPDF renderer, abstracted to the ordered list of cleaned cell
      texts it is given; yields the rendered byte stream. -/
  fpdfRender : List Str → List Nat
  /-- `unicodedata.normalize("NFKD", ·)`. -/
  nfkd : Str → Str
  /-- `datetime.utcnow().isoformat(timespec="seconds")`. -/
  now : Str

/-- The fields of the inbound event that `lambda_handler` consumes. -/
structure Event : Type where
  reqCtxHttpMethod : Option Str
  reqCtxHttpPath : Option Str
  httpMethod : Option Str
  rawPath : Option Str
  body : Option (List (Str × Json))

/-- Python `a or b` for an optional string `a` (absent and empty are
    both falsy). -/
def pyOrStr (a : Option Str) (b : Str) : Str :=
  match a with
  | some s => if s = [] then b else s
  | none => b

/-- `http_info.get("method", event.get("httpMethod", "GET"))`. -/
def resolveMethod (event : Event) : Str :=
  match event.reqCtxHttpMethod with
  | some m => m
  | none => event.httpMethod.getD (str ("GET"))

/-- `event.get("rawPath") or http_info.get("path") or "/"`. -/
def resolvePath (event : Event) : Str :=
  pyOrStr event.rawPath (pyOrStr event.reqCtxHttpPath (str ("/")))

/-- The base64 alphabet, as used by Python `base64.b64encode`. -/
def B64_CHARS : Str :=
  str ("ABCDEFGHIJKLMNOPQRSTUVWXYZabcdefghijklmnopqrstuvwxyz0123456789+/")

/-- The base64 digit for a 6-bit value. -/
def b64Char (n : Nat) : Char := (B64_CHARS.get? n).getD (Char.ofNat 65)

/-- The 6-bit value of a base64 digit. -/
def b64Idx (c : Char) : Nat := B64_CHARS.indexOf c

/-- Standard base64 of a byte list, modelling
    `base64.b64encode(bytes).decode("utf-8")`. -/
def base64Encode : List Nat → Str
  | [] => []
  | [b1] => [b64Char (b1 / 4), b64Char (b1 % 4 * 16), '=', '=']
  | [b1, b2] => [b64Char (b1 / 4), b64Char (b1 % 4 * 16 + b2 / 16), b64Char (b2 % 16 * 4), '=']
  | b1 :: b2 :: b3 :: rest =>
    b64Char (b1 / 4) :: b64Char (b1 % 4 * 16 + b2 / 16) ::
      b64Char (b2 % 16 * 4 + b3 / 64) :: b64Char (b3 % 64) :: base64Encode rest

/-- Standard base64 decoding, inverse to `base64Encode` on byte input. -/
def base64Decode : Str → List Nat
  | c1 :: c2 :: c3 :: c4 :: rest =>
    if c3 = '=' then [b64Idx c1 * 4 + b64Idx c2 / 16]
    else if c4 = '=' then
      [b64Idx c1 * 4 + b64Idx c2 / 16, b64Idx c2 % 16 * 16 + b64Idx c3 / 4]
    else
      (b64Idx c1 * 4 + b64Idx c2 / 16) :: (b64Idx c2 % 16 * 16 + b64Idx c3 / 4) ::
        (b64Idx c3 % 4 * 64 + b64Idx c4) :: base64Decode rest
  | _ => []

/-- Source constant `REGION` (configuration only; no claim depends on it). -/
def REGION : Str := str ("us-west-2")

/-- Source constant `BUCKET` (the bucket identity is part of `Env`). -/
def BUCKET : Str := str ("syntheademodata")

/-- Source constant `PROCESSED_PREFIX` (renamed here; the source calls
    it PROCESSED_PREFIX). -/
def PROCESSED_DIR : Str := str ("processed/")

/-- `s3_read_text(key)`: a successful `get_object` yields the decoded
    text, any raised exception is swallowed and yields the empty string
    (the NoSuchKey test in the source only controls logging).  The
    second component is the read-trace entry.  The function is total:
    it cannot itself raise. -/
def s3_read_text (env : Env) (key : Str) : Str × List Str :=
  (match env.bucket.read key with
   | Except.ok t => t
   | Except.error _ => [],
   [key])

/-- `clean_text(text)`: NFKD-normalise, then encode to latin-1 with
    replacement and decode back; characters above U+00FF become a
    question mark. -/
def clean_text (env : Env) (t : Str) : Str :=
  if t = [] then []
  else (env.nfkd t).map (fun c => if c.toNat ≤ 255 then c else '?')

/-- `s3.list_objects_v2(Bucket=BUCKET, Prefix=prefix)`: the keys under
    the prefix, in listing order; an empty filter models a response
    without a Contents entry. -/
def list_objects_keys (env : Env) (pre : Str) : List Str :=
  env.bucket.keys.filter (fun k => pre.isPrefixOf k)

/-- The patient id extracted from one listed key: the second
    slash-separated component, provided there are more than two
    components and it is non-empty. -/
def keyPid (key : Str) : Option Str :=
  let parts := splitOnChar '/' key
  if 2 < parts.length ∧ (parts.get? 1).getD [] ≠ [] then parts.get? 1 else none

/-- Python `list(csv.reader(io.StringIO(data)))` on simple unquoted
    comma-separated text: records are newline-separated, a trailing
    newline produces no final record, and a blank line is an empty
    record. -/
def csvRows (s : Str) : List (List Str) :=
  if s = [] then []
  else
    let lines := splitOnChar '\n' s
    let lines := if lines.getLast? = some [] then lines.dropLast else lines
    lines.map (fun l => if l = [] then [] else splitOnChar ',' l)

/-- The name lookup of `list_patients_from_processed`: the `name` cell
    of the second CSV row when the header has a `name` column, else the
    patient id (the bare `except` also restores the id on an index
    error). -/
def nameFromCsv (pid csvData : Str) : Str :=
  let rows := csvRows csvData
  match rows.get? 0, rows.get? 1 with
  | some hdr, some row =>
    if str ("name") ∈ hdr then
      match row.get? (hdr.indexOf (str ("name"))) with
      | some v => v
      | none => pid
    else pid
  | _, _ => pid

/-- One patient entry: read `patients.csv`, falling back to
    `patient.csv` when the first read yields empty text (Python `or`
    short-circuits, so the second key is only read in that case). -/
def patientName (env : Env) (pid : Str) : Str × List Str :=
  let r1 := s3_read_text env (PROCESSED_DIR ++ pid ++ str ("/patients.csv"))
  if r1.1 ≠ [] then (nameFromCsv pid r1.1, r1.2)
  else
    let r2 := s3_read_text env (PROCESSED_DIR ++ pid ++ str ("/patient.csv"))
    (nameFromCsv pid r2.1, r1.2 ++ r2.2)

/-- `list_patients_from_processed()`: collect the distinct patient ids
    under the processed prefix, sorted ascending, and pair each with
    its display name. -/
def list_patients_from_processed (env : Env) : List (Str × Str) × List Str :=
  let keys := list_objects_keys env PROCESSED_DIR
  if keys.isEmpty then ([], [])
  else
    let pids := pySortedSet (keys.filterMap keyPid)
    let results := pids.map (fun pid => (pid, patientName env pid))
    (results.map (fun pr => (pr.1, pr.2.1)), (results.map (fun pr => pr.2.2)).flatten)

/-- The JSON document `{"patients": [{"id": ..., "name": ...}, ...]}`. -/
def patientsJson (pts : List (Str × Str)) : Json :=
  Json.obj [(str ("patients"),
    Json.arr (pts.map (fun p =>
      Json.obj [(str ("id"), Json.str p.1), (str ("name"), Json.str p.2)])))]

/-- `handle_list_patients()`. -/
def handle_list_patients (env : Env) : Outcome :=
  let pr := list_patients_from_processed env
  ⟨Except.ok ⟨200, [], RBody.jsonOf (patientsJson pr.1), false⟩, pr.2, []⟩

/-- `pandas.read_csv` on simple unquoted comma-separated text, as the
    summarisation helpers use it: blank lines are skipped, the first
    remaining line is the header, the rest are data rows.  `none`
    models the EmptyDataError raised on input with no columns.  Quoting,
    ragged rows and dtype coercion of the cell text are outside the
    modelled scope (cells stay strings; numeric interpretation is the
    callers' `numParse?`). -/
def pdReadCsv (s : Str) : Option (List Str × List (List Str)) :=
  let lines := (splitOnChar '\n' s).filter (fun l => l ≠ [])
  match lines with
  | [] => none
  | h :: t => some (splitOnChar ',' h, t.map (splitOnChar ','))

/-- Insert one (serviceprovider, class) key pair into the ascending
    group/count list; models the sorted groupby of
    `summarize_hospitals_and_departments`. -/
def insertPairCount (p : Str × Str) : List (Str × Str × Nat) → List (Str × Str × Nat)
  | [] => [(p.1, p.2, 1)]
  | (a, b, n) :: rest =>
    if p.1 = a ∧ p.2 = b then (a, b, n + 1) :: rest
    else if (strLt p.1 a || (p.1 = a && strLt p.2 b)) then
      (p.1, p.2, 1) :: (a, b, n) :: rest
    else (a, b, n) :: insertPairCount p rest

/-- The text part of `summarize_hospitals_and_departments`, applied to
    the text of `encounters.csv`.  Groupby drops rows whose key is
    missing (an empty cell is a NaN key) and sorts group keys
    ascending, as pandas does. -/
def summarizeText (data : Str) : Str :=
  if data = [] then str ("⚠️ No encounter data available.")
  else
    match pdReadCsv data with
    | none => str ("⚠️ Error reading encounters.csv: No columns to parse from file")
    | some hr =>
      let cols := hr.1.map pyLower
      if str ("serviceprovider") ∉ cols then str ("⚠️ Missing hospital/provider info.")
      else
        let spIdx := cols.indexOf (str ("serviceprovider"))
        let hasClass := str ("class") ∈ cols
        let clIdx := cols.indexOf (str ("class"))
        let pairs := hr.2.filterMap (fun row =>
          let sp := (row.get? spIdx).getD []
          let cl := if hasClass then (row.get? clIdx).getD [] else str ("Unknown")
          if sp = [] ∨ (hasClass ∧ cl = []) then none else some (sp, cl))
        let grouped := pairs.foldl (fun acc p => insertPairCount p acc) []
        List.intercalate (str ("\n"))
          (str ("📍 Encounter Summary by Hospital and Department:") ::
            grouped.map (fun g =>
              str ("- ") ++ g.1 ++ str (" → ") ++ g.2.1 ++ str (": ") ++
                natStr g.2.2 ++ str (" visit(s)")))

/-- `summarize_hospitals_and_departments(pid)` with its read trace. -/
def summarize_hospitals_and_departments (env : Env) (pid : Str) : Str × List Str :=
  let r := s3_read_text env (PROCESSED_DIR ++ pid ++ str ("/encounters.csv"))
  (summarizeText r.1, r.2)

/-- The numeric value of a digit run. -/
def digitsVal (l : Str) : Nat := l.foldl (fun a c => a * 10 + (c.toNat - 48)) 0

/-- The exponent suffix of a decimal literal. -/
def expPart (m : Int) (e0 : Int) (t : Str) : Option (Int × Int) :=
  let se : Int × Str :=
    match t with
    | '-' :: u => (-1, u)
    | '+' :: u => (1, u)
    | u => (1, u)
  let ds := se.2.takeWhile Char.isDigit
  if ds = [] ∨ se.2.dropWhile Char.isDigit ≠ [] then none
  else some (m, e0 + se.1 * Int.ofNat (digitsVal ds))

/-- A decimal literal parsed exactly, as (mantissa, base-10 exponent);
    models the numeric interpretation pandas gives a cell.  Exact
    rational comparison stands in for float comparison (they agree on
    the short clinical figures in scope). -/
def numParse? (s : Str) : Option (Int × Int) :=
  let core := fun (r : Str) (sgn : Int) =>
    let ip := r.takeWhile Char.isDigit
    let r1 := r.dropWhile Char.isDigit
    let fr : Str × Str :=
      match r1 with
      | '.' :: t => (t.takeWhile Char.isDigit, t.dropWhile Char.isDigit)
      | _ => ([], r1)
    if ip = [] ∧ fr.1 = [] then none
    else
      let m := sgn * Int.ofNat (digitsVal (ip ++ fr.1))
      let e0 : Int := -(Int.ofNat fr.1.length)
      match fr.2 with
      | [] => some (m, e0)
      | 'e' :: t => expPart m e0 t
      | 'E' :: t => expPart m e0 t
      | _ => none
  match s with
  | '-' :: r => core r (-1)
  | '+' :: r => core r 1
  | r => core r 1

/-- Strict comparison of two parsed decimals. -/
def decLt (a b : Int × Int) : Bool :=
  let e := min a.2 b.2
  decide (a.1 * 10 ^ (a.2 - e).toNat < b.1 * 10 ^ (b.2 - e).toNat)

/-- The trend lines of one parsed CSV, as `analyze_trends` builds them:
    for every numeric column (every cell empty or a decimal literal)
    whose non-empty cells number at least two, report whether the last
    exceeds the first.  Cell text is echoed as written. -/
def trendLines (hr : List Str × List (List Str)) : List Str :=
  let cols := hr.1.map pyLower
  (List.range cols.length).filterMap (fun i =>
    let cells := hr.2.map (fun r => (r.get? i).getD [])
    if cells.all (fun v => v = [] || (numParse? v).isSome) then
      let s := cells.filter (fun v => v ≠ [])
      if 2 ≤ s.length then
        let first := (s.get? 0).getD []
        let last := (s.getLast?).getD []
        let t := if decLt ((numParse? first).getD (0, 0)) ((numParse? last).getD (0, 0))
          then str ("increasing") else str ("decreasing")
        some (str ("- ") ++ pyTitle ((cols.get? i).getD []) ++ str (" is ") ++ t ++
          str (" (") ++ first ++ str (" → ") ++ last ++ str (")"))
      else none
    else none)

/-- One labelled trend section of `analyze_trends`; `none` when the
    file is empty, unparsable (the caught exception only feeds the
    unused `missing` list) or yields no trend lines. -/
def trendSection (label : Str) (data : Str) : Option Str :=
  if data = [] then none
  else
    match pdReadCsv data with
    | none => none
    | some hr =>
      let lines := trendLines hr
      if lines = [] then none
      else some (label ++ str ("\n") ++ List.intercalate (str ("\n")) lines)

/-- `analyze_trends(pid)` with its read trace: vitals then labs. -/
def analyze_trends (env : Env) (pid : Str) : Str × List Str :=
  let base := PROCESSED_DIR ++ pid ++ str ("/")
  let rv := s3_read_text env (base ++ str ("vitals.csv"))
  let rl := s3_read_text env (base ++ str ("labs.csv"))
  let secs := [trendSection (str ("📈 Vitals Trends:")) rv.1,
               trendSection (str ("🧪 Lab Trends:")) rl.1].filterMap id
  let joined := List.intercalate (str ("\n\n")) secs
  (if joined = [] then str ("⚠️ No trend data.") else joined, rv.2 ++ rl.2)

/-- `ask_bedrock(system_prompt, user_prompt)`: the fixed model id,
    anthropic version, max_tokens 700 and temperature 0.2 and the
    response parsing are folded into the `env.bedrock` exchange; the
    second component is the model-call trace entry.  An invocation
    error is not caught here. -/
def ask_bedrock (env : Env) (system_prompt user_prompt : Str) :
    Except Str Str × List (Str × Str) :=
  (env.bedrock system_prompt user_prompt, [(system_prompt, user_prompt)])

/-- The general-question system prompt of `handle_ask` (the three
    source string literals, concatenated as Python does). -/
def GENERAL_SYSTEM_PROMPT : Str :=
  str ("You are a general healthcare AI assistant. ") ++
  str ("Answer clearly and accurately using medical knowledge, but keep the tone simple and educational. ") ++
  str ("If the question is about medical terms, tests, or diseases, explain them concisely and safely.")

/-- Apostrophe, kept out of string literals. -/
def apos : Char := Char.ofNat 39

/-- The patient-specific system prompt of `handle_ask`. -/
def CLINICAL_SYSTEM_PROMPT : Str :=
  str ("You are a clinical AI assistant. Summarize patient information from vitals, labs, and imaging. ") ++
  str ("Provide structured insights in sections like Vitals, Labs, Imaging, and Summary. ") ++
  str ("If data is simulated, mention that it") ++ [apos] ++ str ("s for demonstration only.")

/-- The fixed file list the patient-specific branch reads. -/
def CTX_FILES : List Str :=
  [str ("patients.csv"), str ("encounters.csv"), str ("conditions.csv"),
   str ("labs.csv"), str ("vitals.csv"), str ("imaging.csv")]

/-- The simulated vitals section used when `vitals.csv` is absent. -/
def VITALS_SIM : Str :=
  str ("## vitals.csv\nBP: 120/78 mmHg, HR: 72 bpm, Temp: 98.7°F, SpO2: 99%, Resp: 16/min")

/-- The simulated labs section used when `labs.csv` is absent. -/
def LABS_SIM : Str :=
  str ("## labs.csv\nCBC: Normal, Glucose: 104 mg/dL, Cholesterol: 182 mg/dL, Hemoglobin: 13.6 g/dL")

/-- The simulated imaging section used when `imaging.csv` is absent. -/
def IMAGING_SIM : Str :=
  str ("## imaging.csv\nChest X-ray: Clear lungs, MRI Brain: Normal, CT Abdomen: No acute findings.")

/-- The context section contributed by one file of `CTX_FILES`: a
    labelled excerpt of the first 1000 characters when the file has
    text, a simulated default for the three files that have one, and
    nothing otherwise. -/
def fileSectionText (n data : Str) : Option Str :=
  if data ≠ [] then some (str ("## ") ++ n ++ str ("\n") ++ data.take 1000)
  else if n = str ("vitals.csv") then some VITALS_SIM
  else if n = str ("labs.csv") then some LABS_SIM
  else if n = str ("imaging.csv") then some IMAGING_SIM
  else none

/-- Read one context file and build its section. -/
def fileSection (env : Env) (pid n : Str) : Option Str × List Str :=
  let r := s3_read_text env (PROCESSED_DIR ++ pid ++ str ("/") ++ n)
  (fileSectionText n r.1, r.2)

/-- The patient context of `handle_ask` (the loop over `CTX_FILES`
    followed by the two summaries, joined with single newlines), with
    its read trace. -/
def build_patient_context (env : Env) (pid : Str) : Str × List Str :=
  let secs := CTX_FILES.map (fileSection env pid)
  let hsum := summarize_hospitals_and_departments env pid
  let tsum := analyze_trends env pid
  (List.intercalate (str ("\n")) (secs.filterMap (fun x => x.1) ++ [hsum.1, tsum.1]),
   (secs.map (fun x => x.2)).flatten ++ hsum.2 ++ tsum.2)

/-- The user prompt of the patient-specific model call. -/
def askUserPrompt (env : Env) (pid q : Str) : Str :=
  str ("Context:\n") ++ (build_patient_context env pid).1 ++ str ("\n\nQuestion: ") ++ q

/-- The 200 answer response of `handle_ask`. -/
def answerResp (a : Str) : Response :=
  ⟨200, [], RBody.jsonOf (Json.obj [(str ("answer"), Json.str a)]), false⟩

/-- `handle_ask(event)`.  The unused `role` field is parsed and
    discarded by the source and not modelled.  A missing or falsy
    question short-circuits to the 400 response; a falsy patientId or a
    general-knowledge keyword routes to the general branch; otherwise
    the patient context is assembled and sent.  A model invocation
    error is not caught and surfaces as `Except.error`. -/
def handle_ask (env : Env) (event : Event) : Outcome :=
  let b := event.body.getD []
  let pid := jget b (str ("patientId"))
  let q := jget b (str ("question"))
  if jsonFalsy q then
    ⟨Except.ok ⟨400, [],
      RBody.jsonOf (Json.obj [(str ("error"), Json.str (str ("Missing question")))]),
      false⟩, [], []⟩
  else
    let qs := jsonAsStr q
    let ql := pyLower qs
    if jsonFalsy pid || pyIn (str ("what is")) ql || pyIn (str ("explain")) ql ||
        pyIn (str ("how does")) ql || pyIn (str ("difference")) ql then
      let call := ask_bedrock env GENERAL_SYSTEM_PROMPT qs
      ⟨(match call.1 with
        | Except.ok a => Except.ok (answerResp a)
        | Except.error e => Except.error e), [], call.2⟩
    else
      let pids := jsonAsStr pid
      let bc := build_patient_context env pids
      let call := ask_bedrock env CLINICAL_SYSTEM_PROMPT (askUserPrompt env pids qs)
      ⟨(match call.1 with
        | Except.ok a => Except.ok (answerResp a)
        | Except.error e => Except.error e), bc.2, call.2⟩

/-- The cleaned cell texts handed to the FPDF renderer by
    `handle_generate_pdf`, in call order (title cell, generated line,
    requested-by line, patient line, order multi-cell, footer
    multi-cell). -/
def pdfTexts (env : Env) (event : Event) : List Str :=
  let b := event.body.getD []
  let pid := jgetStrD b (str ("patientId")) (str ("unknown"))
  let pname := jgetStrD b (str ("patientName")) (str ("Unknown Patient"))
  let otype := jgetStrD b (str ("orderType")) (str ("Lab Panel"))
  let odet := jgetStrD b (str ("orderDetails")) (str ("CBC, CMP, Lipid Panel"))
  let reqby := jgetStrD b (str ("requestedBy")) (str ("Provider"))
  [clean_text env (str ("Provider Order Summary")),
   clean_text env (str ("Generated: ") ++ env.now ++ str ("Z")),
   clean_text env (str ("Requested By: ") ++ reqby),
   clean_text env (str ("Patient: ") ++ pname ++ str (" (ID: ") ++ pid ++ str (")")),
   clean_text env (str ("Order Type: ") ++ otype ++ str ("\nDetails: ") ++ odet),
   clean_text env (str ("This order is securely generated by I AI Healthcare Connector."))]

/-- The Content-Disposition value of the PDF response. -/
def pdfFileName (event : Event) : Str :=
  str ("attachment; filename=\"") ++
    jgetStrD (event.body.getD []) (str ("patientId")) (str ("unknown")) ++
    str ("_order.pdf\"")

/-- `handle_generate_pdf(event)`: always a 200 whose entire body is the
    base64 of the rendered bytes, flagged base64-encoded, with the
    filename carried in the Content-Disposition header.  The request
    content is never validated. -/
def handle_generate_pdf (env : Env) (event : Event) : Outcome :=
  ⟨Except.ok ⟨200,
    [(str ("Content-Type"), str ("application/pdf")),
     (str ("Content-Disposition"), pdfFileName event)],
    RBody.raw (base64Encode (env.fpdfRender (pdfTexts env event))), true⟩, [], []⟩

/-- `lambda_handler(event, context)`: the route table of the source,
    in source order.  The initial logging print has no modelled
    effect. -/
def lambda_handler (env : Env) (event : Event) : Outcome :=
  let method := resolveMethod event
  let path := resolvePath event
  if method = str ("OPTIONS") then
    ⟨Except.ok ⟨200, [], RBody.raw [], false⟩, [], []⟩
  else if method = str ("GET") ∧ (path = str ("/") ∨ path = str ("/patients")) then
    handle_list_patients env
  else if method = str ("POST") ∧ path = str ("/ask") then
    handle_ask env event
  else if method = str ("POST") ∧ (path = str ("/order-pdf") ∨ path = str ("/orderpdf")) then
    handle_generate_pdf env event
  else
    ⟨Except.ok ⟨404, [],
      RBody.jsonOf (Json.obj [(str ("error"),
        Json.str (str ("Not found ") ++ method ++ str (" ") ++ path))]), false⟩, [], []⟩

/-- The keys `handle_ask` reads on the patient-specific branch, in
    order: the six files of `CTX_FILES`, then `encounters.csv` again
    for the hospital summary, then `vitals.csv` and `labs.csv` again
    for the trend analysis.  The append shapes mirror how each call
    site builds its key. -/
def patientReadKeys (pid : Str) : List Str :=
  [PROCESSED_DIR ++ pid ++ str ("/") ++ str ("patients.csv"),
   PROCESSED_DIR ++ pid ++ str ("/") ++ str ("encounters.csv"),
   PROCESSED_DIR ++ pid ++ str ("/") ++ str ("conditions.csv"),
   PROCESSED_DIR ++ pid ++ str ("/") ++ str ("labs.csv"),
   PROCESSED_DIR ++ pid ++ str ("/") ++ str ("vitals.csv"),
   PROCESSED_DIR ++ pid ++ str ("/") ++ str ("imaging.csv"),
   PROCESSED_DIR ++ pid ++ str ("/encounters.csv"),
   PROCESSED_DIR ++ pid ++ str ("/") ++ str ("vitals.csv"),
   PROCESSED_DIR ++ pid ++ str ("/") ++ str ("labs.csv")]

/-- The header map of a completed outcome (empty when the run raised). -/
def respHeaders (o : Outcome) : List (Str × Str) :=
  match o.result with
  | Except.ok r => r.headers
  | Except.error _ => []

/-! ### Concrete stores, environments and events used by the claims -/

/-- A bucket with no objects; every read raises the missing-key error. -/
def emptyBucket : Bucket := ⟨[], fun _ => Except.error (str ("NoSuchKey"))⟩

/-- An environment over the empty store with an always-successful model. -/
def env0 : Env := ⟨emptyBucket, fun _ _ => Except.ok (str ("ans")), fun _ => [], id, str ("T")⟩

/-- A store holding exactly `processed/p2/y.csv` and `processed/p1/x.csv`
    (listed in that order, so the sorted output is observable); no
    patients CSV exists, so every read raises. -/
def env2 : Env :=
  ⟨⟨[str ("processed/p2/y.csv"), str ("processed/p1/x.csv")],
    fun _ => Except.error (str ("NoSuchKey"))⟩,
   fun _ _ => Except.ok (str ("ans")), fun _ => [], id, str ("T")⟩

/-- An environment whose model invocation always raises. -/
def envFail : Env :=
  ⟨emptyBucket, fun _ _ => Except.error (str ("boom")), fun _ => [], id, str ("T")⟩

/-- An environment whose renderer emits the four PDF magic bytes. -/
def envPdf : Env :=
  ⟨emptyBucket, fun _ _ => Except.ok (str ("ans")), fun _ => [37, 80, 68, 70], id, str ("T")⟩

/-- An OPTIONS preflight request. -/
def evtOptions : Event := ⟨some (str ("OPTIONS")), some (str ("/patients")), none, none, none⟩

/-- A GET /patients request. -/
def evtPatients : Event := ⟨some (str ("GET")), some (str ("/patients")), none, none, none⟩

/-- A POST /ask request whose body has no question field. -/
def evtAskNoQ : Event :=
  ⟨some (str ("POST")), some (str ("/ask")), none, none,
   some [(str ("patientId"), Json.str (str ("p1")))]⟩

/-- A POST /ask request with an empty question string. -/
def evtAskEmptyQ : Event :=
  ⟨some (str ("POST")), some (str ("/ask")), none, none,
   some [(str ("question"), Json.str [])]⟩

/-- A POST /ask request asking about medications for patient P. -/
def evtMeds : Event :=
  ⟨some (str ("POST")), some (str ("/ask")), none, none,
   some [(str ("patientId"), Json.str (str ("P"))),
         (str ("question"), Json.str (str ("What medications is the patient on?")))]⟩

/-- A POST /ask request for patient P whose question matches no
    general-knowledge keyword. -/
def evtNoKw : Event :=
  ⟨some (str ("POST")), some (str ("/ask")), none, none,
   some [(str ("patientId"), Json.str (str ("P"))),
         (str ("question"), Json.str (str ("please summarize the record")))]⟩

/-- A POST /ask request with question "hi" and no patientId. -/
def evtHi : Event :=
  ⟨some (str ("POST")), some (str ("/ask")), none, none,
   some [(str ("question"), Json.str (str ("hi")))]⟩

/-- A POST /ask request with a "what is" question and a patientId. -/
def evtWhatIs : Event :=
  ⟨some (str ("POST")), some (str ("/ask")), none, none,
   some [(str ("patientId"), Json.str (str ("p1"))),
         (str ("question"), Json.str (str ("what is diabetes")))]⟩

/-- A POST /pdf request with empty content. -/
def evtPdfEmptyContent : Event :=
  ⟨some (str ("POST")), some (str ("/pdf")), none, none,
   some [(str ("content"), Json.str [])]⟩

/-- A POST /pdf request with non-empty content. -/
def evtPdfContent : Event :=
  ⟨some (str ("POST")), some (str ("/pdf")), none, none,
   some [(str ("content"), Json.str (str ("Report text")))]⟩

/-- A POST /order-pdf request. -/
def evtOrderPdf : Event :=
  ⟨some (str ("POST")), some (str ("/order-pdf")), none, none,
   some [(str ("patientId"), Json.str (str ("p7"))),
         (str ("content"), Json.str (str ("Report text")))]⟩

/-- A DELETE /foo request, matching no route. -/
def evtDelete : Event := ⟨some (str ("DELETE")), some (str ("/foo")), none, none, none⟩

/-- The big encounters cell for the over-cap contexts: `50000 + k`
    copies of the character `c`. -/
def cexBigName (c : Char) (k : Nat) : Str := List.replicate (50000 + k) c

/-- An encounters.csv whose single data row is the big cell. -/
def cexEncCsv (c : Char) (k : Nat) : Str :=
  str ("serviceprovider") ++ '\n' :: cexBigName c k

/-- The key of the big encounters file. -/
def cexEncKey : Str := str ("processed/P/encounters.csv")

/-- A store holding exactly the big encounters file for patient P. -/
def cexEnv (c : Char) (k : Nat) : Env :=
  ⟨⟨[cexEncKey],
    fun key => if key = cexEncKey then Except.ok (cexEncCsv c k) else Except.error (str ("NoSuchKey"))⟩,
   fun _ _ => Except.ok (str ("ans")), fun _ => [], id, str ("T")⟩

/-- The body of the over-cap patient question. -/
def cexBody : List (Str × Json) :=
  [(str ("patientId"), Json.str (str ("P"))),
   (str ("question"), Json.str (str ("summarize")))]

/-- A POST /ask request for patient P with a keyword-free question. -/
def cexEvent : Event := ⟨some (str ("POST")), some (str ("/ask")), none, none, some cexBody⟩

/-- The context the patient branch assembles over the big store: the
    truncated encounters excerpt (its first 1000 characters reach 984
    characters into the big cell), the three simulated sections, the
    encounter summary carrying the big cell in full, and the empty
    trend placeholder, joined by single newlines. -/
def cexCtx (c : Char) (k : Nat) : Str :=
  str ("## ") ++ str ("encounters.csv") ++ str ("\n") ++
  (str ("serviceprovider\n") ++ List.replicate 984 c) ++ str ("\n") ++
  LABS_SIM ++ str ("\n") ++ VITALS_SIM ++ str ("\n") ++ IMAGING_SIM ++ str ("\n") ++
  str ("📍 Encounter Summary by Hospital and Department:") ++ str ("\n") ++
  str ("- ") ++ cexBigName c k ++ str (" → ") ++ str ("Unknown") ++ str (": ") ++
  natStr 1 ++ str (" visit(s)") ++ str ("\n") ++ str ("⚠️ No trend data.")


/-! ### Helper lemmas -/

lemma splitOnChar_ne_nil (c : Char) (l : Str) : splitOnChar c l ≠ [] := by
  cases l with
  | nil => simp [splitOnChar]
  | cons x xs =>
    simp only [splitOnChar]
    split <;> split <;> simp

lemma splitOnChar_of_not_mem (c : Char) (l : Str) (h : c ∉ l) : splitOnChar c l = [l] := by
  induction l with
  | nil => rfl
  | cons x xs ih =>
    have hx : ¬(x = c) := fun hc => h (hc ▸ List.mem_cons_self x xs)
    have hxs : c ∉ xs := fun hc => h (List.mem_cons_of_mem x hc)
    simp only [splitOnChar, ih hxs]
    rw [if_neg hx]

lemma splitOnChar_append_cons (c : Char) (a b : Str) (ha : c ∉ a) :
    splitOnChar c (a ++ c :: b) = a :: splitOnChar c b := by
  induction a with
  | nil =>
    simp only [List.nil_append, splitOnChar]
    cases hsb : splitOnChar c b with
    | nil => exact absurd hsb (splitOnChar_ne_nil c b)
    | cons y ys => simp
  | cons x xs ih =>
    have hx : ¬(x = c) := fun hc => ha (hc ▸ List.mem_cons_self x xs)
    have hxs : c ∉ xs := fun hc => ha (List.mem_cons_of_mem x hc)
    have ih2 := ih hxs
    simp only [List.cons_append, splitOnChar, List.append_eq]
    rw [ih2]
    simp [hx]

lemma b64Idx_b64Char : ∀ n, n < 64 → b64Idx (b64Char n) = n := by decide

lemma b64Char_ne : ∀ n, n < 64 → b64Char n ≠ '=' := by decide

/-- Base64 decoding inverts base64 encoding on byte input. -/
theorem b64_roundtrip : ∀ (bs : List Nat), (∀ b ∈ bs, b < 256) →
    base64Decode (base64Encode bs) = bs
  | [], _ => rfl
  | [b1], h => by
    have hb1 : b1 < 256 := h b1 (by simp)
    simp only [base64Encode, base64Decode]
    rw [if_pos trivial]
    rw [b64Idx_b64Char _ (by omega), b64Idx_b64Char _ (by omega)]
    congr 1
    omega
  | [b1, b2], h => by
    have hb1 : b1 < 256 := h b1 (by simp)
    have hb2 : b2 < 256 := h b2 (by simp)
    simp only [base64Encode, base64Decode]
    rw [if_neg (b64Char_ne _ (by omega)), if_pos trivial]
    rw [b64Idx_b64Char _ (by omega), b64Idx_b64Char _ (by omega),
        b64Idx_b64Char _ (by omega)]
    congr 1
    · omega
    congr 1
    omega
  | b1 :: b2 :: b3 :: rest, h => by
    have hb1 : b1 < 256 := h b1 (by simp)
    have hb2 : b2 < 256 := h b2 (by simp)
    have hb3 : b3 < 256 := h b3 (by simp)
    have ih := b64_roundtrip rest (fun b hb => h b (by simp [hb]))
    simp only [base64Encode, base64Decode]
    rw [if_neg (b64Char_ne _ (by omega)), if_neg (b64Char_ne _ (by omega))]
    rw [b64Idx_b64Char _ (by omega), b64Idx_b64Char _ (by omega),
        b64Idx_b64Char _ (by omega), b64Idx_b64Char _ (by omega)]
    rw [ih]
    congr 1
    · omega
    congr 1
    · omega
    congr 1
    omega

lemma lambda_handler_post_ask (env : Env) (evt : Event)
    (hm : resolveMethod evt = str ("POST")) (hp : resolvePath evt = str ("/ask")) :
    lambda_handler env evt = handle_ask env evt := by
  simp only [lambda_handler]
  rw [hm, hp]
  rw [if_neg (by decide), if_neg (by decide), if_pos (by decide)]

lemma lambda_handler_post_pdf (env : Env) (evt : Event)
    (hm : resolveMethod evt = str ("POST"))
    (hp : resolvePath evt = str ("/order-pdf") ∨ resolvePath evt = str ("/orderpdf")) :
    lambda_handler env evt = handle_generate_pdf env evt := by
  simp only [lambda_handler]
  rw [hm]
  rcases hp with hp | hp <;> rw [hp] <;>
    rw [if_neg (by decide), if_neg (by decide), if_neg (by decide), if_pos (by decide)]

lemma lambda_handler_not_found (env : Env) (evt : Event)
    (h1 : ¬(resolveMethod evt = str ("OPTIONS")))
    (h2 : ¬(resolveMethod evt = str ("GET") ∧
            (resolvePath evt = str ("/") ∨ resolvePath evt = str ("/patients"))))
    (h3 : ¬(resolveMethod evt = str ("POST") ∧ resolvePath evt = str ("/ask")))
    (h4 : ¬(resolveMethod evt = str ("POST") ∧
            (resolvePath evt = str ("/order-pdf") ∨ resolvePath evt = str ("/orderpdf")))) :
    lambda_handler env evt =
      ⟨Except.ok ⟨404, [],
        RBody.jsonOf (Json.obj [(str ("error"),
          Json.str (str ("Not found ") ++ resolveMethod evt ++ str (" ") ++ resolvePath evt))]),
        false⟩, [], []⟩ := by
  simp only [lambda_handler]
  rw [if_neg h1, if_neg h2, if_neg h3, if_neg h4]

lemma handle_ask_missing_question (env : Env) (evt : Event)
    (hq : jget ((evt.body).getD []) (str ("question")) = none ∨
          jget ((evt.body).getD []) (str ("question")) = some (Json.str [])) :
    handle_ask env evt =
      ⟨Except.ok ⟨400, [],
        RBody.jsonOf (Json.obj [(str ("error"), Json.str (str ("Missing question")))]),
        false⟩, [], []⟩ := by
  simp only [handle_ask]
  rcases hq with h | h <;> rw [h] <;> rfl

lemma handle_ask_general_eval (env : Env) (evt : Event) (b : List (Str × Json)) (q : Str)
    (hb : evt.body = some b)
    (hq : jget b (str ("question")) = some (Json.str q)) (hqne : q ≠ [])
    (hcond : jsonFalsy (jget b (str ("patientId"))) = true ∨
             pyIn (str ("what is")) (pyLower q) = true ∨
             pyIn (str ("explain")) (pyLower q) = true ∨
             pyIn (str ("how does")) (pyLower q) = true ∨
             pyIn (str ("difference")) (pyLower q) = true) :
    handle_ask env evt =
      ⟨(match env.bedrock GENERAL_SYSTEM_PROMPT q with
        | Except.ok a => Except.ok (answerResp a)
        | Except.error e => Except.error e), [], [(GENERAL_SYSTEM_PROMPT, q)]⟩ := by
  have hqf : jsonFalsy (some (Json.str q)) = false := by
    cases q with
    | nil => exact absurd rfl hqne
    | cons c cs => rfl
  simp only [handle_ask, hb, Option.getD, hq]
  rw [if_neg (by simp [hqf])]
  simp only [jsonAsStr]
  rcases hcond with h | h | h | h | h <;>
    rw [if_pos (by simp [h])] <;> rfl

lemma handle_ask_patient_eval (env : Env) (evt : Event) (b : List (Str × Json)) (pid q : Str)
    (hb : evt.body = some b)
    (hpid : jget b (str ("patientId")) = some (Json.str pid)) (hpne : pid ≠ [])
    (hq : jget b (str ("question")) = some (Json.str q)) (hqne : q ≠ [])
    (h1 : pyIn (str ("what is")) (pyLower q) = false)
    (h2 : pyIn (str ("explain")) (pyLower q) = false)
    (h3 : pyIn (str ("how does")) (pyLower q) = false)
    (h4 : pyIn (str ("difference")) (pyLower q) = false) :
    handle_ask env evt =
      ⟨(match env.bedrock CLINICAL_SYSTEM_PROMPT (askUserPrompt env pid q) with
        | Except.ok a => Except.ok (answerResp a)
        | Except.error e => Except.error e),
       (build_patient_context env pid).2,
       [(CLINICAL_SYSTEM_PROMPT, askUserPrompt env pid q)]⟩ := by
  have hqf : jsonFalsy (some (Json.str q)) = false := by
    cases q with
    | nil => exact absurd rfl hqne
    | cons c cs => rfl
  have hpf : jsonFalsy (some (Json.str pid)) = false := by
    cases pid with
    | nil => exact absurd rfl hpne
    | cons c cs => rfl
  simp only [handle_ask, hb, Option.getD, hq, hpid]
  rw [if_neg (by simp [hqf])]
  simp only [jsonAsStr]
  rw [if_neg (by simp [hpf, h1, h2, h3, h4])]
  rfl

/-! ### Claims -/

/-- C1: For every POST request to the question-answering route (/ask)
whose JSON body lacks the `question` field (absent or empty), the
handler returns status 400 with a JSON body containing an `error`
field, and the model client is never invoked for that request (the
outcome records no model calls and no reads). -/
theorem C1_missing_question_400 (env : Env) (evt : Event)
    (hm : resolveMethod evt = str ("POST")) (hp : resolvePath evt = str ("/ask"))
    (hq : jget ((evt.body).getD []) (str ("question")) = none ∨
          jget ((evt.body).getD []) (str ("question")) = some (Json.str [])) :
    lambda_handler env evt =
      ⟨Except.ok ⟨400, [],
        RBody.jsonOf (Json.obj [(str ("error"), Json.str (str ("Missing question")))]),
        false⟩, [], []⟩ :=
  (lambda_handler_post_ask env evt hm hp).trans (handle_ask_missing_question env evt hq)

/-- Witness for C1: a request with no question field, and one with an
empty question string, both yield the 400 outcome with no model call. -/
theorem C1_missing_question_400_witness :
    resolveMethod evtAskNoQ = str ("POST") ∧ resolvePath evtAskNoQ = str ("/ask") ∧
    jget ((evtAskNoQ.body).getD []) (str ("question")) = none ∧
    jget ((evtAskEmptyQ.body).getD []) (str ("question")) = some (Json.str []) ∧
    lambda_handler env0 evtAskNoQ =
      ⟨Except.ok ⟨400, [],
        RBody.jsonOf (Json.obj [(str ("error"), Json.str (str ("Missing question")))]),
        false⟩, [], []⟩ ∧
    lambda_handler env0 evtAskEmptyQ =
      ⟨Except.ok ⟨400, [],
        RBody.jsonOf (Json.obj [(str ("error"), Json.str (str ("Missing question")))]),
        false⟩, [], []⟩ :=
  ⟨rfl, rfl, rfl, rfl,
   C1_missing_question_400 env0 evtAskNoQ rfl rfl (Or.inl rfl),
   C1_missing_question_400 env0 evtAskEmptyQ rfl rfl (Or.inr rfl)⟩

/-- C2: GET /patients over the empty object store returns status 200
with body `{"patients": []}`; over a store containing exactly the keys
processed/p2/y.csv and processed/p1/x.csv (listed in that order) it
returns the patients sorted ascending by id as
`[{"id":"p1","name":"p1"},{"id":"p2","name":"p2"}]`, each name
defaulting to the id because no patients CSV supplies one. -/
theorem C2_list_patients :
    lambda_handler env0 evtPatients =
      ⟨Except.ok ⟨200, [],
        RBody.jsonOf (Json.obj [(str ("patients"), Json.arr [])]), false⟩, [], []⟩ ∧
    lambda_handler env2 evtPatients =
      ⟨Except.ok ⟨200, [],
        RBody.jsonOf (Json.obj [(str ("patients"), Json.arr
          [Json.obj [(str ("id"), Json.str (str ("p1"))), (str ("name"), Json.str (str ("p1")))],
           Json.obj [(str ("id"), Json.str (str ("p2"))), (str ("name"), Json.str (str ("p2")))]])]),
        false⟩,
       [str ("processed/p1/patients.csv"), str ("processed/p1/patient.csv"),
        str ("processed/p2/patients.csv"), str ("processed/p2/patient.csv")], []⟩ :=
  ⟨rfl, rfl⟩

/-- C8: the text-store read operation never raises: it is a total
function of the store, returning the object text on a successful read
and the empty string on any storage fault (including the missing-key
case), so callers always receive a (possibly empty) string. -/
theorem C8_read_text_total (env : Env) (key : Str) :
    (∀ t, env.bucket.read key = Except.ok t → s3_read_text env key = (t, [key])) ∧
    (∀ e, env.bucket.read key = Except.error e → s3_read_text env key = ([], [key])) := by
  constructor
  · intro t h
    simp [s3_read_text, h]
  · intro e h
    simp [s3_read_text, h]

/-- Witness for C8: a faulting read yields the empty string, a
successful read yields the stored text. -/
theorem C8_read_text_total_witness :
    env0.bucket.read (str ("k")) = Except.error (str ("NoSuchKey")) ∧
    s3_read_text env0 (str ("k")) = ([], [str ("k")]) ∧
    (cexEnv 'h' 0).bucket.read cexEncKey = Except.ok (cexEncCsv 'h' 0) ∧
    s3_read_text (cexEnv 'h' 0) cexEncKey = (cexEncCsv 'h' 0, [cexEncKey]) :=
  ⟨rfl, (C8_read_text_total env0 (str ("k"))).2 (str ("NoSuchKey")) rfl,
   rfl, (C8_read_text_total (cexEnv 'h' 0) cexEncKey).1 (cexEncCsv 'h' 0) rfl⟩

/-- C9: every (method, path) pair matching no route table entry is
answered with status 404 and a body whose error message contains both
the request method and the request path as substrings. -/
theorem C9_unmatched_route (env : Env) (evt : Event)
    (h1 : ¬(resolveMethod evt = str ("OPTIONS")))
    (h2 : ¬(resolveMethod evt = str ("GET") ∧
            (resolvePath evt = str ("/") ∨ resolvePath evt = str ("/patients"))))
    (h3 : ¬(resolveMethod evt = str ("POST") ∧ resolvePath evt = str ("/ask")))
    (h4 : ¬(resolveMethod evt = str ("POST") ∧
            (resolvePath evt = str ("/order-pdf") ∨ resolvePath evt = str ("/orderpdf")))) :
    lambda_handler env evt =
      ⟨Except.ok ⟨404, [],
        RBody.jsonOf (Json.obj [(str ("error"),
          Json.str (str ("Not found ") ++ resolveMethod evt ++ str (" ") ++ resolvePath evt))]),
        false⟩, [], []⟩ ∧
    (∃ l r, str ("Not found ") ++ resolveMethod evt ++ str (" ") ++ resolvePath evt =
      l ++ resolveMethod evt ++ r) ∧
    (∃ l r, str ("Not found ") ++ resolveMethod evt ++ str (" ") ++ resolvePath evt =
      l ++ resolvePath evt ++ r) :=
  ⟨lambda_handler_not_found env evt h1 h2 h3 h4,
   ⟨str ("Not found "), str (" ") ++ resolvePath evt, by simp [List.append_assoc]⟩,
   ⟨str ("Not found ") ++ resolveMethod evt ++ str (" "), [], by simp [List.append_assoc]⟩⟩

/-- Witness for C9: DELETE /foo matches no route and is answered with
the 404 body naming DELETE and /foo. -/
theorem C9_unmatched_route_witness :
    ¬(resolveMethod evtDelete = str ("OPTIONS")) ∧
    lambda_handler env0 evtDelete =
      ⟨Except.ok ⟨404, [],
        RBody.jsonOf (Json.obj [(str ("error"),
          Json.str (str ("Not found ") ++ resolveMethod evtDelete ++ str (" ") ++
            resolvePath evtDelete))]),
        false⟩, [], []⟩ :=
  ⟨by decide,
   (C9_unmatched_route env0 evtDelete (by decide) (by decide) (by decide) (by decide)).1⟩

/-- C10: every POST /ask request whose lower-cased question contains
one of the substrings "what is", "explain", "how does" or "difference"
takes the general-knowledge path: no patient file is read, no patient
context is assembled, and the single model call carries the general
system prompt with the bare question — whatever the body's patientId. -/
theorem C10_keyword_general_path (env : Env) (evt : Event) (b : List (Str × Json)) (q : Str)
    (hm : resolveMethod evt = str ("POST")) (hp : resolvePath evt = str ("/ask"))
    (hb : evt.body = some b)
    (hq : jget b (str ("question")) = some (Json.str q)) (hqne : q ≠ [])
    (hkw : pyIn (str ("what is")) (pyLower q) = true ∨
           pyIn (str ("explain")) (pyLower q) = true ∨
           pyIn (str ("how does")) (pyLower q) = true ∨
           pyIn (str ("difference")) (pyLower q) = true) :
    (lambda_handler env evt).s3Reads = [] ∧
    (lambda_handler env evt).modelCalls = [(GENERAL_SYSTEM_PROMPT, q)] := by
  have h := (lambda_handler_post_ask env evt hm hp).trans
    (handle_ask_general_eval env evt b q hb hq hqne (Or.inr hkw))
  rw [h]
  exact ⟨rfl, rfl⟩

/-- Witness for C10: "what is diabetes" with a patientId present still
takes the general path: no reads, one general model call. -/
theorem C10_keyword_general_path_witness :
    jget [(str ("patientId"), Json.str (str ("p1"))),
          (str ("question"), Json.str (str ("what is diabetes")))] (str ("patientId")) =
      some (Json.str (str ("p1"))) ∧
    pyIn (str ("what is")) (pyLower (str ("what is diabetes"))) = true ∧
    (lambda_handler env0 evtWhatIs).s3Reads = [] ∧
    (lambda_handler env0 evtWhatIs).modelCalls =
      [(GENERAL_SYSTEM_PROMPT, str ("what is diabetes"))] := by
  have h := C10_keyword_general_path env0 evtWhatIs
    [(str ("patientId"), Json.str (str ("p1"))),
     (str ("question"), Json.str (str ("what is diabetes")))]
    (str ("what is diabetes")) rfl rfl rfl rfl (by decide) (Or.inl (by decide))
  exact ⟨rfl, by decide, h.1, h.2⟩

lemma handle_ask_result_headers (env : Env) (evt : Event) (r : Response)
    (h : (handle_ask env evt).result = Except.ok r) : r.headers = [] := by
  simp only [handle_ask] at h
  split at h
  · cases h
    rfl
  · split at h
    · split at h
      · cases h
        rfl
      · exact absurd h (by simp)
    · split at h
      · cases h
        rfl
      · exact absurd h (by simp)

lemma handle_list_patients_result_headers (env : Env) (r : Response)
    (h : (handle_list_patients env).result = Except.ok r) : r.headers = [] := by
  simp only [handle_list_patients] at h
  cases h
  rfl

lemma handle_generate_pdf_result_headers (env : Env) (evt : Event) (r : Response)
    (h : (handle_generate_pdf env evt).result = Except.ok r) :
    r.headers = [(str ("Content-Type"), str ("application/pdf")),
                 (str ("Content-Disposition"), pdfFileName evt)] := by
  simp only [handle_generate_pdf] at h
  cases h
  rfl

lemma lambda_handler_headers (env : Env) (evt : Event) (r : Response)
    (h : (lambda_handler env evt).result = Except.ok r) :
    ∀ kv ∈ r.headers, kv.1 = str ("Content-Type") ∨ kv.1 = str ("Content-Disposition") := by
  simp only [lambda_handler] at h
  split at h
  · cases h
    simp
  · split at h
    · rw [handle_list_patients_result_headers env r h]
      simp
    · split at h
      · rw [handle_ask_result_headers env evt r h]
        simp
      · split at h
        · rw [handle_generate_pdf_result_headers env evt r h]
          intro kv hkv
          simp only [List.mem_cons, List.not_mem_nil, or_false] at hkv
          rcases hkv with h1 | h1 <;> rw [h1] <;> simp
        · cases h
          simp

/-- C5 counterexample: the OPTIONS response has status 200 and empty
body but an empty header map, so it carries none of the CORS fields the
claim requires; a non-OPTIONS response (GET /patients) likewise carries
no cross-origin header. -/
theorem C5_counterexample :
    lambda_handler env0 evtOptions = ⟨Except.ok ⟨200, [], RBody.raw [], false⟩, [], []⟩ ∧
    (¬ ∃ v, (str ("Access-Control-Allow-Origin"), v) ∈
      respHeaders (lambda_handler env0 evtOptions)) ∧
    (¬ ∃ v, (str ("Access-Control-Allow-Methods"), v) ∈
      respHeaders (lambda_handler env0 evtOptions)) ∧
    (¬ ∃ v, (str ("Access-Control-Allow-Headers"), v) ∈
      respHeaders (lambda_handler env0 evtOptions)) ∧
    (¬ ∃ v, (str ("Access-Control-Allow-Origin"), v) ∈
      respHeaders (lambda_handler env0 evtPatients)) := by
  refine ⟨rfl, ?_, ?_, ?_, ?_⟩ <;> rintro ⟨v, hv⟩ <;> exact List.not_mem_nil _ hv

/-- C5 (amended): every OPTIONS request, regardless of path, is
answered with status 200, empty body and an *empty* header map; and no
response of the dispatcher carries cross-origin headers — the only
header fields ever attached are Content-Type and Content-Disposition,
on the PDF route. -/
theorem C5_options_and_no_cors :
    (∀ (env : Env) (evt : Event), resolveMethod evt = str ("OPTIONS") →
       lambda_handler env evt = ⟨Except.ok ⟨200, [], RBody.raw [], false⟩, [], []⟩) ∧
    (∀ (env : Env) (evt : Event) (r : Response),
       (lambda_handler env evt).result = Except.ok r →
       ∀ kv ∈ r.headers, kv.1 = str ("Content-Type") ∨ kv.1 = str ("Content-Disposition")) := by
  constructor
  · intro env evt h
    simp only [lambda_handler]
    rw [h]
    rw [if_pos rfl]
  · exact lambda_handler_headers

/-- Witness for the amended C5: the concrete OPTIONS request, and one
concrete header of the PDF route checked against the allowed fields. -/
theorem C5_options_and_no_cors_witness :
    resolveMethod evtOptions = str ("OPTIONS") ∧
    lambda_handler env0 evtOptions = ⟨Except.ok ⟨200, [], RBody.raw [], false⟩, [], []⟩ ∧
    ((str ("Content-Type"), str ("application/pdf")).1 = str ("Content-Type") ∨
     (str ("Content-Type"), str ("application/pdf")).1 = str ("Content-Disposition")) :=
  ⟨rfl, C5_options_and_no_cors.1 env0 evtOptions rfl,
   C5_options_and_no_cors.2 envPdf evtOrderPdf _ rfl
     (str ("Content-Type"), str ("application/pdf")) (by simp)⟩

/-- C7 counterexample: with an always-failing model client, POST /ask
with question "hi" produces no response at all — the invocation error
propagates out of the handler (`Except.error`), after the model call
was made; in particular no 500 response carrying error and answer
fields exists. -/
theorem C7_counterexample :
    (lambda_handler envFail evtHi).result = Except.error (str ("boom")) ∧
    (lambda_handler envFail evtHi).modelCalls = [(GENERAL_SYSTEM_PROMPT, str ("hi"))] ∧
    ¬ ∃ r : Response, (lambda_handler envFail evtHi).result = Except.ok r := by
  refine ⟨rfl, rfl, ?_⟩
  rintro ⟨r, hr⟩
  have h : (lambda_handler envFail evtHi).result = Except.error (str ("boom")) := rfl
  rw [h] at hr
  exact Except.noConfusion hr

/-- C7 (amended): a model invocation error is not caught anywhere: on
both the general and the patient-specific branch of the
question-answering route it propagates through `handle_ask` and
`lambda_handler` to the platform layer, so no 500 response (and no
response at all) is produced. -/
theorem C7_model_error_propagates :
    (∀ (env : Env) (evt : Event) (b : List (Str × Json)) (q e : Str),
       resolveMethod evt = str ("POST") → resolvePath evt = str ("/ask") →
       evt.body = some b →
       jget b (str ("question")) = some (Json.str q) → q ≠ [] →
       jsonFalsy (jget b (str ("patientId"))) = true →
       env.bedrock GENERAL_SYSTEM_PROMPT q = Except.error e →
       (lambda_handler env evt).result = Except.error e) ∧
    (∀ (env : Env) (evt : Event) (b : List (Str × Json)) (pid q e : Str),
       resolveMethod evt = str ("POST") → resolvePath evt = str ("/ask") →
       evt.body = some b →
       jget b (str ("patientId")) = some (Json.str pid) → pid ≠ [] →
       jget b (str ("question")) = some (Json.str q) → q ≠ [] →
       pyIn (str ("what is")) (pyLower q) = false →
       pyIn (str ("explain")) (pyLower q) = false →
       pyIn (str ("how does")) (pyLower q) = false →
       pyIn (str ("difference")) (pyLower q) = false →
       env.bedrock CLINICAL_SYSTEM_PROMPT (askUserPrompt env pid q) = Except.error e →
       (lambda_handler env evt).result = Except.error e) := by
  constructor
  · intro env evt b q e hm hp hb hq hqne hpid herr
    rw [(lambda_handler_post_ask env evt hm hp).trans
      (handle_ask_general_eval env evt b q hb hq hqne (Or.inl hpid))]
    simp [herr]
  · intro env evt b pid q e hm hp hb hpid hpne hq hqne h1 h2 h3 h4 herr
    rw [(lambda_handler_post_ask env evt hm hp).trans
      (handle_ask_patient_eval env evt b pid q hb hpid hpne hq hqne h1 h2 h3 h4)]
    simp [herr]

/-- Witness for the amended C7: the concrete failing model turns the
"hi" request into a propagated error. -/
theorem C7_model_error_propagates_witness :
    envFail.bedrock GENERAL_SYSTEM_PROMPT (str ("hi")) = Except.error (str ("boom")) ∧
    jsonFalsy (jget [(str ("question"), Json.str (str ("hi")))] (str ("patientId"))) = true ∧
    (lambda_handler envFail evtHi).result = Except.error (str ("boom")) :=
  ⟨rfl, rfl,
   C7_model_error_propagates.1 envFail evtHi [(str ("question"), Json.str (str ("hi")))]
     (str ("hi")) (str ("boom")) rfl rfl rfl rfl (by decide) rfl rfl⟩

/-- C6 counterexample: POST /pdf matches no route at all — with
`{"content": ""}` the dispatcher answers 404 (not the claimed 400), and
with valid non-empty content it also answers 404 (not a 200 carrying a
file field). -/
theorem C6_counterexample :
    lambda_handler env0 evtPdfEmptyContent =
      ⟨Except.ok ⟨404, [],
        RBody.jsonOf (Json.obj [(str ("error"), Json.str (str ("Not found POST /pdf")))]),
        false⟩, [], []⟩ ∧
    lambda_handler env0 evtPdfContent =
      ⟨Except.ok ⟨404, [],
        RBody.jsonOf (Json.obj [(str ("error"), Json.str (str ("Not found POST /pdf")))]),
        false⟩, [], []⟩ :=
  ⟨rfl, rfl⟩

/-- C6 (amended): the PDF route is POST /order-pdf (or /orderpdf), and
POST /pdf is a 404.  The handler never validates `content` (it does
not read it): for every body it returns status 200 whose entire body
is the base64 of the rendered byte stream, flagged base64-encoded,
with the filename in the Content-Disposition header; decoding the body
recovers the renderer's byte stream exactly (so it bears the PDF
header whenever the renderer emits one). -/
theorem C6_order_pdf_route (env : Env) (evt : Event)
    (hm : resolveMethod evt = str ("POST"))
    (hp : resolvePath evt = str ("/order-pdf") ∨ resolvePath evt = str ("/orderpdf")) :
    lambda_handler env evt =
      ⟨Except.ok ⟨200,
        [(str ("Content-Type"), str ("application/pdf")),
         (str ("Content-Disposition"), pdfFileName evt)],
        RBody.raw (base64Encode (env.fpdfRender (pdfTexts env evt))), true⟩, [], []⟩ ∧
    ((∀ byte ∈ env.fpdfRender (pdfTexts env evt), byte < 256) →
      base64Decode (base64Encode (env.fpdfRender (pdfTexts env evt))) =
        env.fpdfRender (pdfTexts env evt)) := by
  refine ⟨?_, fun hb => b64_roundtrip _ hb⟩
  rw [lambda_handler_post_pdf env evt hm hp]
  rfl

/-- Witness for the amended C6: with a renderer emitting the four PDF
magic bytes, the base64 body decodes back to exactly those bytes. -/
theorem C6_order_pdf_route_witness :
    resolveMethod evtOrderPdf = str ("POST") ∧
    resolvePath evtOrderPdf = str ("/order-pdf") ∧
    lambda_handler envPdf evtOrderPdf =
      ⟨Except.ok ⟨200,
        [(str ("Content-Type"), str ("application/pdf")),
         (str ("Content-Disposition"), pdfFileName evtOrderPdf)],
        RBody.raw (base64Encode [37, 80, 68, 70]), true⟩, [], []⟩ ∧
    base64Decode (base64Encode [37, 80, 68, 70]) = [37, 80, 68, 70] := by
  have h := C6_order_pdf_route envPdf evtOrderPdf rfl (Or.inl rfl)
  exact ⟨rfl, rfl, h.1, h.2 (by decide)⟩

/-- C4 counterexample: the question "What medications is the patient
on?" (with a patientId, over the empty store) reads exactly the fixed
file set of `patientReadKeys` — no medication.csv,
medicationrequest.csv or medicationadministration.csv is ever read —
and a question matching no keyword reads the same fixed set, not the
claimed fallback {encounter.csv, condition.csv, observation.csv}. -/
theorem C4_counterexample :
    (lambda_handler env0 evtMeds).s3Reads = patientReadKeys (str ("P")) ∧
    str ("processed/P/medication.csv") ∉ (lambda_handler env0 evtMeds).s3Reads ∧
    str ("processed/P/medicationrequest.csv") ∉ (lambda_handler env0 evtMeds).s3Reads ∧
    str ("processed/P/medicationadministration.csv") ∉ (lambda_handler env0 evtMeds).s3Reads ∧
    (lambda_handler env0 evtNoKw).s3Reads = patientReadKeys (str ("P")) ∧
    str ("processed/P/encounter.csv") ∉ (lambda_handler env0 evtNoKw).s3Reads ∧
    str ("processed/P/condition.csv") ∉ (lambda_handler env0 evtNoKw).s3Reads ∧
    str ("processed/P/observation.csv") ∉ (lambda_handler env0 evtNoKw).s3Reads := by
  refine ⟨rfl, ?_, ?_, ?_, rfl, ?_, ?_, ?_⟩ <;> decide

/-- C4 (amended): file selection is not keyword-driven.  Every
patient-branch request reads the same fixed key list — patients.csv,
encounters.csv, conditions.csv, labs.csv, vitals.csv, imaging.csv,
with encounters.csv, vitals.csv and labs.csv read again by the summary
and trend helpers — independent of the question and of the store
contents; no medication file and no keyword fallback set exists. -/
theorem C4_fixed_file_reads (env : Env) (evt : Event) (b : List (Str × Json)) (pid q : Str)
    (hm : resolveMethod evt = str ("POST")) (hp : resolvePath evt = str ("/ask"))
    (hb : evt.body = some b)
    (hpid : jget b (str ("patientId")) = some (Json.str pid)) (hpne : pid ≠ [])
    (hq : jget b (str ("question")) = some (Json.str q)) (hqne : q ≠ [])
    (h1 : pyIn (str ("what is")) (pyLower q) = false)
    (h2 : pyIn (str ("explain")) (pyLower q) = false)
    (h3 : pyIn (str ("how does")) (pyLower q) = false)
    (h4 : pyIn (str ("difference")) (pyLower q) = false) :
    (lambda_handler env evt).s3Reads = patientReadKeys pid := by
  rw [(lambda_handler_post_ask env evt hm hp).trans
    (handle_ask_patient_eval env evt b pid q hb hpid hpne hq hqne h1 h2 h3 h4)]
  rfl

/-- Witness for the amended C4: the medications question for patient P
reads exactly the fixed key list. -/
theorem C4_fixed_file_reads_witness :
    pyIn (str ("what is")) (pyLower (str ("What medications is the patient on?"))) = false ∧
    (lambda_handler env0 evtMeds).s3Reads = patientReadKeys (str ("P")) :=
  ⟨by decide,
   C4_fixed_file_reads env0 evtMeds
     [(str ("patientId"), Json.str (str ("P"))),
      (str ("question"), Json.str (str ("What medications is the patient on?")))]
     (str ("P")) (str ("What medications is the patient on?"))
     rfl rfl rfl rfl (by decide) rfl (by decide)
     (by decide) (by decide) (by decide) (by decide)⟩

lemma cexBigName_ne_nil (c : Char) (k : Nat) : cexBigName c k ≠ [] := by
  simp [cexBigName, List.replicate_eq_nil_iff]

lemma cex_split (c : Char) (k : Nat) (h1 : c ≠ '\n') :
    splitOnChar '\n' (cexEncCsv c k) = [str ("serviceprovider"), cexBigName c k] := by
  have hnm : '\n' ∉ cexBigName c k := by
    intro hm
    exact h1 ((List.eq_of_mem_replicate hm).symm)
  rw [show cexEncCsv c k = str ("serviceprovider") ++ '\n' :: cexBigName c k from rfl]
  rw [splitOnChar_append_cons _ _ _ (by decide)]
  rw [splitOnChar_of_not_mem _ _ hnm]

lemma cex_pd (c : Char) (k : Nat) (h1 : c ≠ '\n') (h2 : c ≠ ',') :
    pdReadCsv (cexEncCsv c k) =
      some ([str ("serviceprovider")], [[cexBigName c k]]) := by
  have hnm : ',' ∉ cexBigName c k := by
    intro hm
    exact h2 ((List.eq_of_mem_replicate hm).symm)
  simp only [pdReadCsv, cex_split c k h1]
  rw [List.filter_cons_of_pos (by decide), List.filter_cons_of_pos
    (by simp [cexBigName_ne_nil c k]), List.filter_nil]
  simp only [List.map_cons, List.map_nil]
  rw [splitOnChar_of_not_mem _ _ (by decide), splitOnChar_of_not_mem _ _ hnm]

lemma cex_summarize (c : Char) (k : Nat) (h1 : c ≠ '\n') (h2 : c ≠ ',') :
    summarizeText (cexEncCsv c k) =
      str ("📍 Encounter Summary by Hospital and Department:") ++ str ("\n") ++
      (str ("- ") ++ cexBigName c k ++ str (" → ") ++ str ("Unknown") ++ str (": ") ++
       natStr 1 ++ str (" visit(s)")) := by
  have hne : cexEncCsv c k ≠ [] := by
    rw [show cexEncCsv c k = str ("serviceprovider") ++ '\n' :: cexBigName c k from rfl]
    simp
  simp only [summarizeText]
  rw [if_neg (by simp [hne]), cex_pd c k h1 h2]
  simp only [List.map_cons, List.map_nil]
  rw [show pyLower (str ("serviceprovider")) = str ("serviceprovider") from by decide]
  rw [if_neg (by decide)]
  have hidx : List.indexOf (str ("serviceprovider")) [str ("serviceprovider")] = 0 := by decide
  have hcls : (str ("class") = str ("serviceprovider")) = False := by decide
  simp only [List.filterMap_cons, List.filterMap_nil, hidx, hcls]
  rw [if_neg (by simp [cexBigName_ne_nil c k, hcls])]
  simp [insertPairCount, List.intercalate, List.intersperse, hcls, hidx]

lemma cex_read (c : Char) (k : Nat) (key : Str) :
    s3_read_text (cexEnv c k) key =
      ((if key = cexEncKey then cexEncCsv c k else []), [key]) := by
  simp only [s3_read_text, cexEnv]
  by_cases h : key = cexEncKey <;> simp [h]

lemma cex_take (c : Char) (k : Nat) :
    (cexEncCsv c k).take 1000 = str ("serviceprovider\n") ++ List.replicate 984 c := by
  rw [show cexEncCsv c k = str ("serviceprovider\n") ++ cexBigName c k from rfl]
  rw [List.take_append_eq_append_take]
  rw [List.take_of_length_le (by decide)]
  rw [show (str ("serviceprovider\n")).length = 16 from rfl]
  rw [show (1000 - 16) = 984 from rfl]
  rw [show cexBigName c k = List.replicate (50000 + k) c from rfl]
  rw [List.take_replicate]
  rw [Nat.min_eq_left (by omega)]

set_option maxRecDepth 4000 in
lemma cex_build (c : Char) (k : Nat) (h1 : c ≠ '\n') (h2 : c ≠ ',') :
    (build_patient_context (cexEnv c k) (str ("P"))).1 = cexCtx c k := by
  have hne : cexEncCsv c k ≠ [] := by
    rw [show cexEncCsv c k = str ("serviceprovider") ++ '\n' :: cexBigName c k from rfl]
    simp
  simp only [build_patient_context, CTX_FILES, List.map_cons, List.map_nil, fileSection,
    summarize_hospitals_and_departments, analyze_trends, cex_read]
  simp only [show (PROCESSED_DIR ++ str ("P") ++ str ("/") ++ str ("patients.csv") = cexEncKey) = False from by decide,
    show (PROCESSED_DIR ++ str ("P") ++ str ("/") ++ str ("encounters.csv") = cexEncKey) = True from by decide,
    show (PROCESSED_DIR ++ str ("P") ++ str ("/") ++ str ("conditions.csv") = cexEncKey) = False from by decide,
    show (PROCESSED_DIR ++ str ("P") ++ str ("/") ++ str ("labs.csv") = cexEncKey) = False from by decide,
    show (PROCESSED_DIR ++ str ("P") ++ str ("/") ++ str ("vitals.csv") = cexEncKey) = False from by decide,
    show (PROCESSED_DIR ++ str ("P") ++ str ("/") ++ str ("imaging.csv") = cexEncKey) = False from by decide,
    show (PROCESSED_DIR ++ str ("P") ++ str ("/encounters.csv") = cexEncKey) = True from by decide,
    show ((PROCESSED_DIR ++ str ("P") ++ str ("/")) ++ str ("vitals.csv") = cexEncKey) = False from by decide,
    show ((PROCESSED_DIR ++ str ("P") ++ str ("/")) ++ str ("labs.csv") = cexEncKey) = False from by decide,
    if_true, if_false]
  rw [cex_summarize c k h1 h2]
  rw [show fileSectionText (str ("patients.csv")) [] = none from rfl,
      show fileSectionText (str ("conditions.csv")) [] = none from rfl,
      show fileSectionText (str ("labs.csv")) [] = some LABS_SIM from rfl,
      show fileSectionText (str ("vitals.csv")) [] = some VITALS_SIM from rfl,
      show fileSectionText (str ("imaging.csv")) [] = some IMAGING_SIM from rfl,
      show trendSection (str ("📈 Vitals Trends:")) [] = none from rfl,
      show trendSection (str ("🧪 Lab Trends:")) [] = none from rfl]
  rw [show fileSectionText (str ("encounters.csv")) (cexEncCsv c k) =
        some (str ("## ") ++ str ("encounters.csv") ++ str ("\n") ++ (cexEncCsv c k).take 1000) from by
      simp only [fileSectionText]
      rw [if_pos (show ¬(cexEncCsv c k = []) from hne)]]
  rw [cex_take c k]
  rw [show List.filterMap (id : Option Str → Option Str) [none, none] = [] from rfl]
  rw [show List.intercalate (str ("\n\n")) ([] : List Str) = [] from rfl]
  rw [if_pos rfl]
  dsimp only [List.filterMap]
  simp only [cexCtx, List.intercalate, List.intersperse, List.flatten,
    List.append_assoc, List.append_nil, List.nil_append]

lemma cex_len_lower (c : Char) (k : Nat) : 50000 < (cexCtx c k).length := by
  simp only [cexCtx, cexBigName, List.length_append, List.length_replicate]
  omega

lemma cex_len_succ (c : Char) : (cexCtx c 1).length = (cexCtx c 0).length + 1 := by
  simp only [cexCtx, cexBigName, List.length_append, List.length_replicate]
  omega

/-- C3 counterexample: no fixed truncation notice can satisfy the
claim.  Two stores whose assembled contexts both exceed 50,000
characters but have different lengths (50,000 and 50,001 copies of the
big encounters cell) are both passed to the model verbatim, so the
claimed shape — exactly 50,000 characters plus one fixed notice —
would force the two context lengths to coincide, a contradiction. -/
theorem C3_counterexample :
    ¬ ∃ notice : Str, notice ≠ [] ∧
      ∀ (env : Env) (evt : Event) (b : List (Str × Json)) (pid q ctxPassed : Str),
        resolveMethod evt = str ("POST") → resolvePath evt = str ("/ask") →
        evt.body = some b →
        jget b (str ("patientId")) = some (Json.str pid) → pid ≠ [] →
        jget b (str ("question")) = some (Json.str q) → q ≠ [] →
        pyIn (str ("what is")) (pyLower q) = false →
        pyIn (str ("explain")) (pyLower q) = false →
        pyIn (str ("how does")) (pyLower q) = false →
        pyIn (str ("difference")) (pyLower q) = false →
        (lambda_handler env evt).modelCalls =
          [(CLINICAL_SYSTEM_PROMPT,
            str ("Context:\n") ++ ctxPassed ++ str ("\n\nQuestion: ") ++ q)] →
        50000 < (build_patient_context env pid).1.length →
        ctxPassed = (build_patient_context env pid).1.take 50000 ++ notice := by
  rintro ⟨w, -, hw⟩
  have key : ∀ k : Nat, (cexCtx 'h' k).length = 50000 + w.length := by
    intro k
    have hmc : (lambda_handler (cexEnv 'h' k) cexEvent).modelCalls =
        [(CLINICAL_SYSTEM_PROMPT,
          str ("Context:\n") ++ cexCtx 'h' k ++ str ("\n\nQuestion: ") ++ str ("summarize"))] := by
      rw [(lambda_handler_post_ask (cexEnv 'h' k) cexEvent rfl rfl).trans
        (handle_ask_patient_eval (cexEnv 'h' k) cexEvent cexBody (str ("P")) (str ("summarize"))
          rfl rfl (by decide) rfl (by decide) (by decide) (by decide) (by decide) (by decide))]
      show [(CLINICAL_SYSTEM_PROMPT, askUserPrompt (cexEnv 'h' k) (str ("P")) (str ("summarize")))] = _
      simp only [askUserPrompt]
      rw [cex_build 'h' k (by decide) (by decide)]
    have hlen : 50000 < (build_patient_context (cexEnv 'h' k) (str ("P"))).1.length := by
      rw [cex_build 'h' k (by decide) (by decide)]
      exact cex_len_lower 'h' k
    have hcc := hw (cexEnv 'h' k) cexEvent cexBody (str ("P")) (str ("summarize")) (cexCtx 'h' k)
      rfl rfl rfl rfl (by decide) rfl (by decide) (by decide) (by decide) (by decide) (by decide)
      hmc hlen
    rw [cex_build 'h' k (by decide) (by decide)] at hcc
    have hlc := congrArg List.length hcc
    rw [List.length_append, List.length_take,
      Nat.min_eq_left (Nat.le_of_lt (cex_len_lower 'h' k))] at hlc
    exact hlc
  have h0 := key 0
  have h1 := key 1
  have hs := cex_len_succ 'h'
  omega

/-- C3 (amended): no truncation occurs.  For every store and every
patient-branch request, the context passed to the model is the full
assembled join (only each file excerpt is individually capped at 1000
characters); there is no overall 50,000-character cap and no
truncation notice, so over-cap contexts are passed unmodified. -/
theorem C3_no_truncation (env : Env) (evt : Event) (b : List (Str × Json)) (pid q : Str)
    (hm : resolveMethod evt = str ("POST")) (hp : resolvePath evt = str ("/ask"))
    (hb : evt.body = some b)
    (hpid : jget b (str ("patientId")) = some (Json.str pid)) (hpne : pid ≠ [])
    (hq : jget b (str ("question")) = some (Json.str q)) (hqne : q ≠ [])
    (h1 : pyIn (str ("what is")) (pyLower q) = false)
    (h2 : pyIn (str ("explain")) (pyLower q) = false)
    (h3 : pyIn (str ("how does")) (pyLower q) = false)
    (h4 : pyIn (str ("difference")) (pyLower q) = false) :
    (lambda_handler env evt).modelCalls =
      [(CLINICAL_SYSTEM_PROMPT,
        str ("Context:\n") ++ (build_patient_context env pid).1 ++
          str ("\n\nQuestion: ") ++ q)] := by
  rw [(lambda_handler_post_ask env evt hm hp).trans
    (handle_ask_patient_eval env evt b pid q hb hpid hpne hq hqne h1 h2 h3 h4)]
  rfl

/-- Witness for the amended C3: a concrete store whose assembled
context exceeds 50,000 characters, passed to the model in full. -/
theorem C3_no_truncation_witness :
    50000 < (build_patient_context (cexEnv 'h' 0) (str ("P"))).1.length ∧
    (lambda_handler (cexEnv 'h' 0) cexEvent).modelCalls =
      [(CLINICAL_SYSTEM_PROMPT,
        str ("Context:\n") ++ (build_patient_context (cexEnv 'h' 0) (str ("P"))).1 ++
          str ("\n\nQuestion: ") ++ str ("summarize"))] :=
  ⟨by
    rw [cex_build 'h' 0 (by decide) (by decide)]
    exact cex_len_lower 'h' 0,
   C3_no_truncation (cexEnv 'h' 0) cexEvent cexBody (str ("P")) (str ("summarize"))
     rfl rfl rfl rfl (by decide) rfl (by decide) (by decide) (by decide) (by decide) (by decide)⟩
